import Mathlib

/-!
Shallow embedding of `src/aurawell/langchain_agent/mcp_tools_manager_v2.py`
(AuraWell_Agent).  Python dicts are modelled as insertion-ordered association
lists (`Dict`), floats as rationals, raised exceptions as `Except.error`.
Backends that live outside this file (the real MCP interface, the enhanced
tools layer) are modelled as oracles / from the spec, and are marked as such.
-/

namespace AuraWell

/-- Values carried in parameter mappings and tool results (a fragment of
Python `Any` large enough for the code under study). -/
inductive Value where
  | str : String → Value
  | num : ℚ → Value
  deriving DecidableEq

/-- Insertion-ordered string-keyed map, the model of a Python `dict`. -/
abbrev Dict (α : Type) := List (String × α)

/-- Python `m[k]` lookup: first (and, by construction, only) binding of `k`. -/
def dget {α : Type} (m : Dict α) (k : String) : Option α :=
  match m with
  | [] => none
  | (k', v) :: rest => if k' = k then some v else dget rest k

/-- Python `m[k] = v`: overwrite the binding in place, else append. -/
def dset {α : Type} (m : Dict α) (k : String) (v : α) : Dict α :=
  match m with
  | [] => [(k, v)]
  | (k', v') :: rest => if k' = k then (k, v) :: rest else (k', v') :: dset rest k v

/-- Python `m.get(k, d)`. -/
def dgetD {α : Type} (m : Dict α) (k : String) (d : α) : α :=
  (dget m k).getD d

theorem dget_dset_self {α : Type} (m : Dict α) (k : String) (v : α) :
    dget (dset m k v) k = some v := by
  induction m with
  | nil => simp [dget, dset]
  | cons p rest ih =>
    by_cases h : p.1 = k
    · simp [dset, dget, h]
    · simp [dset, dget, h, ih]

theorem dget_dset_ne {α : Type} (m : Dict α) (k k' : String) (v : α) (h : k ≠ k') :
    dget (dset m k v) k' = dget m k' := by
  induction m with
  | nil => simp only [dset, dget]; rw [if_neg h]
  | cons p rest ih =>
    by_cases hp : p.1 = k
    · simp [dset, dget, hp, h, Ne.symm h]
    · by_cases hp' : p.1 = k'
      · simp [dset, dget, hp, hp', Ne.symm h]
      · simp [dset, dget, hp, hp', ih]

theorem length_dset_le {α : Type} (m : Dict α) (k : String) (v : α) :
    (dset m k v).length ≤ m.length + 1 := by
  induction m with
  | nil => simp [dset]
  | cons p rest ih =>
    by_cases h : p.1 = k
    · simp [dset, h]
    · simp only [dset, h, if_false, List.length_cons]
      omega

/-! ## Performance tracker (`_update_performance_stats`, lines 178–197) -/

/-- Per-tool statistics record (`tool_performance_stats[tool_name]`). -/
structure PerfStats where
  total_calls : ℕ
  successful_calls : ℕ
  failed_calls : ℕ
  total_execution_time : ℚ
  average_execution_time : ℚ
  deriving DecidableEq

/-- The zeroed record inserted on first sight of a tool name (lines 181–187). -/
def initStats : PerfStats :=
  { total_calls := 0, successful_calls := 0, failed_calls := 0,
    total_execution_time := 0, average_execution_time := 0 }

/-- The in-place mutation of one tool's record (lines 189–197):
`total_calls += 1`, `total_execution_time += execution_time`,
`average = total_time / total_calls`, then bump the success or failure count. -/
def updateStats (s : PerfStats) (success : Bool) (execution_time : ℚ) : PerfStats :=
  let total_calls := s.total_calls + 1
  let total_execution_time := s.total_execution_time + execution_time
  { total_calls := total_calls
    total_execution_time := total_execution_time
    average_execution_time := total_execution_time / (total_calls : ℚ)
    successful_calls := if success then s.successful_calls + 1 else s.successful_calls
    failed_calls := if success then s.failed_calls else s.failed_calls + 1 }

/-- Model of `_update_performance_stats`: the insert-zero-record-if-absent followed by
the mutation is `getD initStats` followed by `dset`. -/
def update_performance_stats (m : Dict PerfStats) (tool_name : String)
    (success : Bool) (execution_time : ℚ) : Dict PerfStats :=
  let s := dgetD m tool_name initStats
  dset m tool_name (updateStats s success execution_time)

/-- The record obtained from a fresh tool after a sequence of
(success, execution_time) events, in call order. -/
def runStats (events : List (Bool × ℚ)) : PerfStats :=
  events.foldl (fun s e => updateStats s e.1 e.2) initStats

theorem foldl_updateStats_total (events : List (Bool × ℚ)) (s : PerfStats) :
    (events.foldl (fun s e => updateStats s e.1 e.2) s).total_calls =
      s.total_calls + events.length := by
  induction events generalizing s with
  | nil => simp
  | cons e es ih =>
    rw [List.foldl_cons, ih]
    simp only [updateStats, List.length_cons]
    omega

theorem foldl_updateStats_succ (events : List (Bool × ℚ)) (s : PerfStats) :
    (events.foldl (fun s e => updateStats s e.1 e.2) s).successful_calls =
      s.successful_calls + (events.filter (·.1)).length := by
  induction events generalizing s with
  | nil => simp
  | cons e es ih =>
    rw [List.foldl_cons, ih]
    rcases e with ⟨b, t⟩
    cases b <;> simp [updateStats, List.filter] <;> omega

theorem foldl_updateStats_failed (events : List (Bool × ℚ)) (s : PerfStats) :
    (events.foldl (fun s e => updateStats s e.1 e.2) s).failed_calls =
      s.failed_calls + (events.filter (fun e => !e.1)).length := by
  induction events generalizing s with
  | nil => simp
  | cons e es ih =>
    rw [List.foldl_cons, ih]
    rcases e with ⟨b, t⟩
    cases b <;> simp [updateStats, List.filter] <;> omega

theorem foldl_updateStats_tet (events : List (Bool × ℚ)) (s : PerfStats) :
    (events.foldl (fun s e => updateStats s e.1 e.2) s).total_execution_time =
      s.total_execution_time + (events.map (·.2)).sum := by
  induction events generalizing s with
  | nil => simp
  | cons e es ih =>
    rw [List.foldl_cons, ih]
    simp only [updateStats, List.map_cons, List.sum_cons]
    ring

/-- Every call re-establishes `average = total_time / total_calls`. -/
theorem foldl_updateStats_avg (events : List (Bool × ℚ)) (s : PerfStats)
    (hs : s.total_calls ≠ 0 →
      s.average_execution_time = s.total_execution_time / (s.total_calls : ℚ)) :
    (events.foldl (fun s e => updateStats s e.1 e.2) s).total_calls ≠ 0 →
      (events.foldl (fun s e => updateStats s e.1 e.2) s).average_execution_time =
        (events.foldl (fun s e => updateStats s e.1 e.2) s).total_execution_time /
          ((events.foldl (fun s e => updateStats s e.1 e.2) s).total_calls : ℚ) := by
  induction events generalizing s with
  | nil => exact fun h => hs h
  | cons e es ih =>
    intro h
    exact ih (updateStats s e.1 e.2) (fun _ => rfl) h

theorem filter_split_length (events : List (Bool × ℚ)) :
    (events.filter (·.1)).length + (events.filter (fun e => !e.1)).length = events.length := by
  induction events with
  | nil => simp
  | cons e es ih =>
    rcases e with ⟨b, t⟩
    cases b <;> simp [List.filter] <;> omega

theorem update_stats_present (m : Dict PerfStats) (tool : String) (b : Bool) (t : ℚ)
    (s : PerfStats) (h : dget m tool = some s) :
    dget (update_performance_stats m tool b t) tool = some (updateStats s b t) := by
  simp [update_performance_stats, dgetD, h, dget_dset_self]

theorem update_stats_absent (m : Dict PerfStats) (tool : String) (b : Bool) (t : ℚ)
    (h : dget m tool = none) :
    dget (update_performance_stats m tool b t) tool = some (updateStats initStats b t) := by
  simp [update_performance_stats, dgetD, h, dget_dset_self]

theorem foldl_update_dict (events : List (Bool × ℚ)) (tool : String) :
    ∀ (m : Dict PerfStats) (s : PerfStats), dget m tool = some s →
      dget (events.foldl (fun d e => update_performance_stats d tool e.1 e.2) m) tool =
        some (events.foldl (fun s e => updateStats s e.1 e.2) s) := by
  induction events with
  | nil => intro m s h; simpa using h
  | cons e es ih =>
    intro m s h
    exact ih _ _ (update_stats_present m tool e.1 e.2 s h)

/-- C1: starting from a state where `tool` has no record, a sequence of
`_update_performance_stats` calls for `tool` leaves a stored record with
`successful_calls + failed_calls = total_calls`, `total_calls = N`,
`successful_calls = k`, `failed_calls = N - k`,
`average_execution_time = total_execution_time / total_calls`, and the
average equal to the arithmetic mean of the recorded durations. -/
theorem performance_stats_invariants (tool : String) (m0 : Dict PerfStats)
    (events : List (Bool × ℚ)) (h0 : dget m0 tool = none) (hne : events ≠ []) :
    ∃ s, dget (events.foldl (fun d e => update_performance_stats d tool e.1 e.2) m0) tool
        = some s ∧
      s.successful_calls + s.failed_calls = s.total_calls ∧
      s.total_calls = events.length ∧
      s.successful_calls = (events.filter (·.1)).length ∧
      s.failed_calls = events.length - (events.filter (·.1)).length ∧
      s.average_execution_time = s.total_execution_time / (s.total_calls : ℚ) ∧
      s.total_execution_time = (events.map (·.2)).sum ∧
      s.average_execution_time = (events.map (·.2)).sum / (events.length : ℚ) := by
  rcases events with _ | ⟨e, es⟩
  · exact absurd rfl hne
  refine ⟨(e :: es).foldl (fun s e => updateStats s e.1 e.2) initStats, ?_, ?_, ?_, ?_, ?_, ?_, ?_, ?_⟩
  · rw [List.foldl_cons, List.foldl_cons]
    exact foldl_update_dict es tool _ _ (update_stats_absent m0 tool e.1 e.2 h0)
  · rw [foldl_updateStats_succ, foldl_updateStats_failed, foldl_updateStats_total]
    have := filter_split_length (e :: es)
    simp only [initStats] at *
    omega
  · rw [foldl_updateStats_total]; simp [initStats]
  · rw [foldl_updateStats_succ]; simp [initStats]
  · rw [foldl_updateStats_failed]
    have := filter_split_length (e :: es)
    simp only [initStats] at *
    omega
  · exact foldl_updateStats_avg (e :: es) initStats (by simp [initStats]) (by
      rw [foldl_updateStats_total]; simp [initStats])
  · rw [foldl_updateStats_tet]; simp [initStats]
  · rw [foldl_updateStats_avg (e :: es) initStats (by simp [initStats]) (by
      rw [foldl_updateStats_total]; simp [initStats]),
      foldl_updateStats_tet, foldl_updateStats_total]
    simp [initStats]

/-- Witness for C1 at the concrete event list [(true, 1), (false, 2)]. -/
theorem performance_stats_invariants_witness :
    ∃ s, dget ([(true, (1 : ℚ)), (false, 2)].foldl
          (fun d e => update_performance_stats d "calculator" e.1 e.2) []) "calculator"
        = some s ∧
      s.successful_calls + s.failed_calls = s.total_calls ∧
      s.total_calls = [(true, (1 : ℚ)), (false, 2)].length ∧
      s.successful_calls = ([(true, (1 : ℚ)), (false, 2)].filter (·.1)).length ∧
      s.failed_calls = [(true, (1 : ℚ)), (false, 2)].length -
        ([(true, (1 : ℚ)), (false, 2)].filter (·.1)).length ∧
      s.average_execution_time = s.total_execution_time / (s.total_calls : ℚ) ∧
      s.total_execution_time = ([(true, (1 : ℚ)), (false, 2)].map (·.2)).sum ∧
      s.average_execution_time =
        ([(true, (1 : ℚ)), (false, 2)].map (·.2)).sum / (([(true, (1 : ℚ)), (false, 2)].length : ℕ) : ℚ) :=
  performance_stats_invariants "calculator" [] [(true, 1), (false, 2)] rfl (by simp)

/-! ## Modes, call results, and the real-backend adapters -/

/-- Enumeration `ToolMode` (lines 21–25). -/
inductive ToolMode where
  | REAL_MCP
  | PLACEHOLDER
  | HYBRID
  deriving DecidableEq

/-- The `ToolMode.value` strings. -/
def ToolMode.value : ToolMode → String
  | .REAL_MCP => "real_mcp"
  | .PLACEHOLDER => "placeholder"
  | .HYBRID => "hybrid"

/-- Enumeration `ToolExecutionMode` from the imported `mcp_tools_enhanced` module (not in
the snapshot); the spec's execution-mode enumeration {Real, Placeholder,
Hybrid} (§3). -/
inductive ToolExecutionMode where
  | REAL
  | PLACEHOLDER
  | HYBRID
  deriving DecidableEq

/-- The `ToolCallResult` dataclass (lines 28–36). -/
structure ToolCallResult where
  success : Bool
  result : Value
  tool_name : String
  mode_used : ToolMode
  error : Option String
  execution_time : ℚ
  deriving DecidableEq

/-- Result type of the enhanced tools layer (`EnhancedMCPTools.call_tool`);
field shape as consumed in lines 99–106 and described by the spec's
`CallResult` (§3). -/
structure EnhancedResult where
  success : Bool
  data : Value
  tool_name : String
  mode_used : ToolExecutionMode
  error : Option String
  execution_time : ℚ
  deriving DecidableEq

/-- Oracle for the real MCP interface (`mcp_interface.MCPToolInterface`, not
in the snapshot).  Every operation may either return data or raise;
`Except.error e` models a raised exception with message `e`. -/
structure RealMCPInterface where
  database_query : Value → Except String Value
  calculator_calculate : Value → Except String Value
  brave_search : Value → Value → Except String Value
  filesystem_read : Value → Except String Value
  filesystem_write : Value → Value → Except String Value
  get_current_time : Unit → Except String Value
  call_tool : String → Dict Value → Except String Value

/-- Adapter `_call_real_database` (lines 135–140). -/
def call_real_database (iface : RealMCPInterface) (action : String)
    (parameters : Dict Value) : Except String Value :=
  if action = "query" then iface.database_query (dgetD parameters "sql" (Value.str ""))
  else .error ("不支持的数据库操作: " ++ action)

/-- Adapter `_call_real_calculator` (lines 142–147). -/
def call_real_calculator (iface : RealMCPInterface) (action : String)
    (parameters : Dict Value) : Except String Value :=
  if action = "calculate" then
    iface.calculator_calculate (dgetD parameters "expression" (Value.str ""))
  else .error ("不支持的计算器操作: " ++ action)

/-- Adapter `_call_real_search` (lines 149–157). -/
def call_real_search (iface : RealMCPInterface) (action : String)
    (parameters : Dict Value) : Except String Value :=
  if action = "search" then
    iface.brave_search (dgetD parameters "query" (Value.str "")) (dgetD parameters "count" (Value.num 5))
  else .error ("不支持的搜索操作: " ++ action)

/-- Adapter `_call_real_filesystem` (lines 159–169). -/
def call_real_filesystem (iface : RealMCPInterface) (action : String)
    (parameters : Dict Value) : Except String Value :=
  if action = "read_file" then iface.filesystem_read (dgetD parameters "path" (Value.str ""))
  else if action = "write_file" then
    iface.filesystem_write (dgetD parameters "path" (Value.str ""))
      (dgetD parameters "content" (Value.str ""))
  else .error ("不支持的文件系统操作: " ++ action)

/-- Adapter `_call_real_time` (lines 171–176). -/
def call_real_time (iface : RealMCPInterface) (action : String)
    (parameters : Dict Value) : Except String Value :=
  if action = "get_time" then iface.get_current_time ()
  else .error ("不支持的时间操作: " ++ action)

/-- Model of `_call_real_mcp_tool` (lines 108–126): raise if the real interface is
uninitialized; dispatch the five mapped tool names to their adapters; fall
through to a generic `call_tool` pass-through otherwise. -/
def call_real_mcp_tool (real_mcp_interface : Option RealMCPInterface)
    (tool_name action : String) (parameters : Dict Value) : Except String Value :=
  match real_mcp_interface with
  | none => .error "真实MCP接口未初始化"
  | some iface =>
    if tool_name = "database_sqlite" then call_real_database iface action parameters
    else if tool_name = "calculator" then call_real_calculator iface action parameters
    else if tool_name = "brave_search" then call_real_search iface action parameters
    else if tool_name = "filesystem" then call_real_filesystem iface action parameters
    else if tool_name = "time" then call_real_time iface action parameters
    else iface.call_tool action parameters

/-- Modelled from the spec: the placeholder backend (§4.1, code in
`mcp_tools_enhanced.py` / the placeholder interface, not in the snapshot)
"synthesizes deterministic or mock data for the same (tool_name, action,
parameters) shape" and never fails. -/
def placeholder_call (tool_name action : String) (parameters : Dict Value) : Value :=
  Value.str ("placeholder:" ++ tool_name ++ ":" ++ action)

/-- Modelled from the spec: `EnhancedMCPTools.call_tool`
(`mcp_tools_enhanced.py` is not in the snapshot).  §4.2: Real → attempt the
real backend only; Placeholder → placeholder only; Hybrid → attempt real and
fall back to placeholder on any failure.  §4.3/§7: a backend failure is
caught and converted into a non-success result carrying the error, never
re-raised; `mode_used` is the backend that produced `data`.  The real path
is the adapter dispatch of `_call_real_mcp_tool`; `t` is the measured
wall-clock duration of the attempt (an oracle input). -/
def enhanced_call_tool (mode : ToolExecutionMode)
    (real_mcp_interface : Option RealMCPInterface) (tool_name action : String)
    (parameters : Dict Value) (t : ℚ) : EnhancedResult :=
  match mode with
  | .REAL =>
    match call_real_mcp_tool real_mcp_interface tool_name action parameters with
    | .ok d => ⟨true, d, tool_name, .REAL, none, t⟩
    | .error e => ⟨false, Value.str "", tool_name, .REAL, some e, t⟩
  | .PLACEHOLDER =>
    ⟨true, placeholder_call tool_name action parameters, tool_name, .PLACEHOLDER, none, t⟩
  | .HYBRID =>
    match call_real_mcp_tool real_mcp_interface tool_name action parameters with
    | .ok d => ⟨true, d, tool_name, .REAL, none, t⟩
    | .error _ =>
      ⟨true, placeholder_call tool_name action parameters, tool_name, .PLACEHOLDER, none, t⟩

/-! ## The manager and `call_tool_smart` -/

/-- A workflow step `{tool, action, parameters}` (§3, consumed at
lines 220–223). -/
structure WorkflowStep where
  tool : String
  action : String
  parameters : Dict Value
  deriving DecidableEq

/-- A workflow configuration: the `"tools"` list of steps (line 220). -/
structure WorkflowConfig where
  tools : List WorkflowStep
  deriving DecidableEq

/-- The state of `MCPToolsManagerV2` relevant to the claims: `tool_mode` and
the enhanced execution mode derived in `__init__` (lines 50–62), the real
interface and `workflows` registry inherited from the base manager
(`mcp_tools_manager.py`, not in the snapshot; the registry is externally
supplied configuration per §3), and the legacy `tool_performance_stats`
dict (line 63). -/
structure ManagerV2 where
  tool_mode : ToolMode
  enhanced_mode : ToolExecutionMode
  real_mcp_interface : Option RealMCPInterface
  tool_performance_stats : Dict PerfStats
  workflows : Dict WorkflowConfig

/-- Mapping of `__init__` lines 54–59: map the tool mode to the enhanced execution
mode. -/
def enhancedModeOf : ToolMode → ToolExecutionMode
  | .REAL_MCP => .REAL
  | .PLACEHOLDER => .PLACEHOLDER
  | .HYBRID => .HYBRID

/-- Constructor `MCPToolsManagerV2.__init__` (lines 50–65): fresh legacy stats, enhanced
mode derived from `tool_mode`; the workflow registry and real interface come
from the base-class constructor (not in the snapshot), passed as oracles. -/
def mkManagerV2 (tool_mode : ToolMode) (base_workflows : Dict WorkflowConfig)
    (base_iface : Option RealMCPInterface) : ManagerV2 :=
  { tool_mode := tool_mode
    enhanced_mode := enhancedModeOf tool_mode
    real_mcp_interface := base_iface
    tool_performance_stats := []
    workflows := base_workflows }

/-- The `mode_mapping` dict (lines 93–97) with its `.get(…, PLACEHOLDER)` default;
all three keys are present, so the default is dead. -/
def mode_mapping : ToolExecutionMode → ToolMode
  | .REAL => .REAL_MCP
  | .PLACEHOLDER => .PLACEHOLDER
  | .HYBRID => .HYBRID

/-- Model of `call_tool_smart` (lines 84–106): delegate to the enhanced tools, convert
the result record; the method reads and writes no other manager state. -/
def call_tool_smart (st : ManagerV2) (tool_name action : String)
    (parameters : Dict Value) (t : ℚ) : ToolCallResult × ManagerV2 :=
  let er := enhanced_call_tool st.enhanced_mode st.real_mcp_interface tool_name action parameters t
  (⟨er.success, er.data, er.tool_name, mode_mapping er.mode_used, er.error, er.execution_time⟩, st)

/-- A concrete real-interface oracle whose operations echo their argument
(so the value a backend was handed is observable in the result). -/
def echoIface : RealMCPInterface :=
  { database_query := fun v => .ok v
    calculator_calculate := fun v => .ok v
    brave_search := fun q _ => .ok q
    filesystem_read := fun p => .ok p
    filesystem_write := fun _ c => .ok c
    get_current_time := fun _ => .ok (Value.str "2026-10-12")
    call_tool := fun a _ => .ok (Value.str a) }

/-- A concrete hybrid-mode manager with empty stats and no workflows. -/
def st0 : ManagerV2 := mkManagerV2 .HYBRID [] none

/-- C2: the dispatcher never propagates an exception: for every manager
state (hence every backend oracle, all of whose operations may raise),
`call_tool_smart` returns a `ToolCallResult`; whenever it reports failure the
error string is present; and in real mode with an uninitialized real
interface it fails cleanly with the "interface uninitialized" error rather
than raising. -/
theorem call_tool_smart_no_raise (st : ManagerV2) (tool_name action : String)
    (parameters : Dict Value) (t : ℚ) :
    ((call_tool_smart st tool_name action parameters t).1.success = false →
      ((call_tool_smart st tool_name action parameters t).1.error).isSome) ∧
    (st.tool_mode = ToolMode.REAL_MCP → st.enhanced_mode = enhancedModeOf st.tool_mode →
      st.real_mcp_interface = none →
      (call_tool_smart st tool_name action parameters t).1.success = false ∧
      (call_tool_smart st tool_name action parameters t).1.error = some "真实MCP接口未初始化") := by
  constructor
  · intro h
    rcases hm : st.enhanced_mode with _ | _ | _ <;>
      rcases hi : call_real_mcp_tool st.real_mcp_interface tool_name action parameters with
        _ | _ <;>
      simp_all [call_tool_smart, enhanced_call_tool]
  · intro hmode hwf hnone
    rw [hmode] at hwf
    simp [call_tool_smart, enhanced_call_tool, hwf, enhancedModeOf, hnone, call_real_mcp_tool]

/-- Witness for C2: real mode, uninitialized interface, concrete call. -/
theorem call_tool_smart_no_raise_witness :
    ((call_tool_smart (mkManagerV2 .REAL_MCP [] none) "calculator" "calculate" [] 1).1.success
        = false →
      ((call_tool_smart (mkManagerV2 .REAL_MCP [] none) "calculator" "calculate" [] 1).1.error).isSome) ∧
    (call_tool_smart (mkManagerV2 .REAL_MCP [] none) "calculator" "calculate" [] 1).1.success
        = false ∧
    (call_tool_smart (mkManagerV2 .REAL_MCP [] none) "calculator" "calculate" [] 1).1.error
        = some "真实MCP接口未初始化" :=
  have h := call_tool_smart_no_raise (mkManagerV2 .REAL_MCP [] none) "calculator" "calculate" [] 1
  ⟨h.1, h.2 rfl rfl rfl⟩

/-- C3 counterexample: a dispatch of "calculator"."calculate" from a state
with empty legacy stats leaves `tool_performance_stats` empty — no record
with `total_calls = 1` exists afterwards, so `call_tool_smart` did not invoke
`_update_performance_stats`. -/
theorem call_tool_smart_stats_cex :
    (call_tool_smart st0 "calculator" "calculate" [] 1).2.tool_performance_stats = [] ∧
    dget (call_tool_smart st0 "calculator" "calculate" [] 1).2.tool_performance_stats
        "calculator" = none := by
  exact ⟨rfl, rfl⟩

/-- C3 amended: `call_tool_smart` never invokes `_update_performance_stats`;
the legacy per-tool statistics of every tool (the dispatched one included)
are unchanged by a dispatch.  (The performance tracking of v2 lives in the
enhanced tools layer; `tool_performance_stats` is dead legacy state.) -/
theorem call_tool_smart_stats_unchanged (st : ManagerV2) (tool_name action : String)
    (parameters : Dict Value) (t : ℚ) :
    (call_tool_smart st tool_name action parameters t).2.tool_performance_stats =
      st.tool_performance_stats := rfl

/-- C8: for each of the five mapped tool names, an action the adapter does
not recognize fails with an unsupported-operation error whose message ends
with the offending action string; an unmapped tool name is passed through to
the generic `call_tool` of the real interface. -/
theorem real_tool_mapping_spec (iface : RealMCPInterface) (tool_name action : String)
    (parameters : Dict Value) :
    (action ≠ "query" →
      call_real_mcp_tool (some iface) "database_sqlite" action parameters =
        .error ("不支持的数据库操作: " ++ action)) ∧
    (action ≠ "calculate" →
      call_real_mcp_tool (some iface) "calculator" action parameters =
        .error ("不支持的计算器操作: " ++ action)) ∧
    (action ≠ "search" →
      call_real_mcp_tool (some iface) "brave_search" action parameters =
        .error ("不支持的搜索操作: " ++ action)) ∧
    (action ≠ "read_file" → action ≠ "write_file" →
      call_real_mcp_tool (some iface) "filesystem" action parameters =
        .error ("不支持的文件系统操作: " ++ action)) ∧
    (action ≠ "get_time" →
      call_real_mcp_tool (some iface) "time" action parameters =
        .error ("不支持的时间操作: " ++ action)) ∧
    (tool_name ∉ (["database_sqlite", "calculator", "brave_search", "filesystem", "time"] :
        List String) →
      call_real_mcp_tool (some iface) tool_name action parameters =
        iface.call_tool action parameters) := by
  refine ⟨fun h => ?_, fun h => ?_, fun h => ?_, fun h h' => ?_, fun h => ?_, fun h => ?_⟩
  · simp [call_real_mcp_tool, call_real_database, h]
  · simp [call_real_mcp_tool, call_real_calculator, h]
  · simp [call_real_mcp_tool, call_real_search, h]
  · simp [call_real_mcp_tool, call_real_filesystem, h, h']
  · simp [call_real_mcp_tool, call_real_time, h]
  · simp only [List.mem_cons, List.mem_singleton, not_or] at h
    obtain ⟨h1, h2, h3, h4, h5, _⟩ := h
    simp [call_real_mcp_tool, h1, h2, h3, h4, h5]

/-- Witness for C8 at the unrecognized action "noop" and the unmapped tool
"unknown_tool". -/
theorem real_tool_mapping_spec_witness :
    call_real_mcp_tool (some echoIface) "database_sqlite" "noop" [] =
      .error ("不支持的数据库操作: " ++ "noop") ∧
    call_real_mcp_tool (some echoIface) "calculator" "noop" [] =
      .error ("不支持的计算器操作: " ++ "noop") ∧
    call_real_mcp_tool (some echoIface) "brave_search" "noop" [] =
      .error ("不支持的搜索操作: " ++ "noop") ∧
    call_real_mcp_tool (some echoIface) "filesystem" "noop" [] =
      .error ("不支持的文件系统操作: " ++ "noop") ∧
    call_real_mcp_tool (some echoIface) "time" "noop" [] =
      .error ("不支持的时间操作: " ++ "noop") ∧
    call_real_mcp_tool (some echoIface) "unknown_tool" "noop" [] =
      echoIface.call_tool "noop" [] :=
  have h := real_tool_mapping_spec echoIface "unknown_tool" "noop" []
  ⟨h.1 (by decide), h.2.1 (by decide), h.2.2.1 (by decide),
   h.2.2.2.1 (by decide) (by decide), h.2.2.2.2.1 (by decide),
   h.2.2.2.2.2 (by decide)⟩

/-! ## The workflow runner (`execute_workflow_v2`, lines 199–256) -/

/-- Lines 226–227: replace the value stored under the KEY `"user_input"`
when that value is the literal token `"{{user_input}}"`; no other key is
inspected. -/
def substitute_params (parameters : Dict Value) (user_input : String) : Dict Value :=
  if dget parameters "user_input" = some (Value.str "\x7b\x7buser_input\x7d\x7d") then
    dset parameters "user_input" (Value.str user_input)
  else parameters

/-- The summary line appended for a step whose dispatch returned
(lines 234–236); the `:.2f` float formatting is abstracted by `toString` of
the rational duration. -/
def success_line (tool_name action : String) (result : ToolCallResult) : String :=
  "✅ " ++ tool_name ++ "." ++ action ++ " (" ++ result.mode_used.value ++ ") - " ++
    toString result.execution_time ++ "s"

/-- The summary line appended for a step whose dispatch raised `e`
(line 242). -/
def failure_line (tool_name action : String) (e : String) : String :=
  "❌ " ++ tool_name ++ "." ++ action ++ " 失败: " ++ e

/-- One iteration of the step loop (lines 220–244).  `dispatch` stands for
`self.call_tool_smart`; `Except.error` models a raised exception, caught by
the `try/except` and logged with a `❌` line.  A returned result is stored
under `"tool_action"` and logged with a `✅` line whether or not
`result.success` holds — line 238 only emits a log warning. -/
def workflow_step (dispatch : String → String → Dict Value → Except String ToolCallResult)
    (user_input : String) (acc : Dict Value × List String) (step : WorkflowStep) :
    Dict Value × List String :=
  let parameters := substitute_params step.parameters user_input
  match dispatch step.tool step.action parameters with
  | .ok result =>
    (dset acc.1 (step.tool ++ "_" ++ step.action) result.result,
     acc.2 ++ [success_line step.tool step.action result])
  | .error e => (acc.1, acc.2 ++ [failure_line step.tool step.action e])

/-- The step loop over a workflow's configured steps (lines 216–244),
accumulating the `results` dict and summary lines. -/
def run_workflow_steps (dispatch : String → String → Dict Value → Except String ToolCallResult)
    (user_input : String) (steps : List WorkflowStep) : Dict Value × List String :=
  steps.foldl (workflow_step dispatch user_input) ([], [])

/-- Modelled from the base module's `WorkflowResult` metadata as constructed
at lines 251–255. -/
structure WorkflowMetadata where
  tool_mode : String
  total_steps : ℕ
  completed_steps : ℕ
  deriving DecidableEq

/-- Modelled from the base module `mcp_tools_manager.WorkflowResult` (not in
the snapshot); fields exactly as constructed in this file and as described
in §3. -/
structure WorkflowResult where
  success : Bool
  workflow_name : String
  results : Dict Value
  execution_summary : String
  metadata : Option WorkflowMetadata
  deriving DecidableEq

/-- Model of `execute_workflow_v2` (lines 199–256). -/
def execute_workflow_v2 (dispatch : String → String → Dict Value → Except String ToolCallResult)
    (st : ManagerV2) (workflow_name user_input : String) : WorkflowResult :=
  match dget st.workflows workflow_name with
  | none =>
    { success := false
      workflow_name := workflow_name
      results := []
      execution_summary := "工作流配置不存在"
      metadata := none }
  | some workflow_config =>
    let rs := run_workflow_steps dispatch user_input workflow_config.tools
    { success := true
      workflow_name := workflow_name
      results := rs.1
      execution_summary := String.intercalate "\n" rs.2
      metadata := some
        { tool_mode := st.tool_mode.value
          total_steps := workflow_config.tools.length
          completed_steps := rs.1.length } }

theorem run_steps_lines_length (dispatch : String → String → Dict Value →
      Except String ToolCallResult) (user_input : String) (steps : List WorkflowStep) :
    ∀ acc : Dict Value × List String,
      ((steps.foldl (workflow_step dispatch user_input) acc).2).length =
        acc.2.length + steps.length := by
  induction steps with
  | nil => intro acc; simp
  | cons step rest ih =>
    intro acc
    rw [List.foldl_cons, ih]
    rcases h : dispatch step.tool step.action (substitute_params step.parameters user_input) with
      _ | _ <;> simp [workflow_step, h] <;> omega

theorem run_steps_results_length (dispatch : String → String → Dict Value →
      Except String ToolCallResult) (user_input : String) (steps : List WorkflowStep) :
    ∀ acc : Dict Value × List String,
      ((steps.foldl (workflow_step dispatch user_input) acc).1).length ≤
        acc.1.length + steps.length := by
  induction steps with
  | nil => intro acc; simp
  | cons step rest ih =>
    intro acc
    rw [List.foldl_cons]
    rcases h : dispatch step.tool step.action (substitute_params step.parameters user_input) with
      e | r
    · calc ((rest.foldl (workflow_step dispatch user_input)
            (workflow_step dispatch user_input acc step)).1).length
          ≤ (workflow_step dispatch user_input acc step).1.length + rest.length := ih _
        _ = acc.1.length + rest.length := by simp [workflow_step, h]
        _ ≤ acc.1.length + (rest.length + 1) := by omega
    · calc ((rest.foldl (workflow_step dispatch user_input)
            (workflow_step dispatch user_input acc step)).1).length
          ≤ (workflow_step dispatch user_input acc step).1.length + rest.length := ih _
        _ ≤ acc.1.length + 1 + rest.length := by
            simp only [workflow_step, h]
            exact Nat.add_le_add_right (length_dset_le _ _ _) _
        _ = acc.1.length + (rest.length + 1) := by omega

theorem str_append_assoc (a b c : String) : a ++ b ++ c = a ++ (b ++ c) := by
  rcases a with ⟨da⟩; rcases b with ⟨db⟩; rcases c with ⟨dc⟩
  show String.mk ((da ++ db) ++ dc) = String.mk (da ++ (db ++ dc))
  rw [List.append_assoc]

/-- The "daily_checkin" workflow of the spec's scenario (§8): a clock step
and a calculator step whose `expression` parameter holds the template
token. -/
def daily_checkin_config : WorkflowConfig :=
  ⟨[⟨"time", "get_time", []⟩,
    ⟨"calculator", "calculate", [("expression", Value.str "\x7b\x7buser_input\x7d\x7d")]⟩]⟩

/-- A concrete real-mode manager over the echoing backend, with the
"daily_checkin" workflow registered. -/
def stReal : ManagerV2 :=
  mkManagerV2 .REAL_MCP [("daily_checkin", daily_checkin_config)] (some echoIface)

/-- Dispatcher `self.call_tool_smart` of a fixed manager as a step dispatcher (the
modelled dispatcher never raises, so every call is `Except.ok`). -/
def realDispatch (st : ManagerV2) :
    String → String → Dict Value → Except String ToolCallResult :=
  fun tool_name action parameters => .ok (call_tool_smart st tool_name action parameters 0).1

/-- A step dispatcher that raises on every call. -/
def errDispatch : String → String → Dict Value → Except String ToolCallResult :=
  fun _ _ _ => .error "backend down"

/-- A returned-but-failed call result and the dispatcher that produces it. -/
def failResult : ToolCallResult :=
  ⟨false, Value.str "denied", "calculator", ToolMode.PLACEHOLDER, some "quota exceeded", 0⟩

def failDispatch : String → String → Dict Value → Except String ToolCallResult :=
  fun _ _ _ => .ok failResult

/-- C4 counterexample: in the "daily_checkin" scenario with
`user_input = "2+2"` against an echoing real backend, the step whose
parameters hold the template token under the key `"expression"` is
dispatched UNSUBSTITUTED — the stored result echoes the literal token, not
"2+2" — because lines 226–227 only inspect the key `"user_input"`. -/
theorem workflow_substitution_cex :
    dget (execute_workflow_v2 (realDispatch stReal) stReal "daily_checkin" "2+2").results
        "calculator_calculate" = some (Value.str "\x7b\x7buser_input\x7d\x7d") ∧
    dget (execute_workflow_v2 (realDispatch stReal) stReal "daily_checkin" "2+2").results
        "calculator_calculate" ≠ some (Value.str "2+2") := by
  exact ⟨rfl, by decide⟩

/-- C4 amended: `execute_workflow_v2` substitutes `user_input` only for a
parameter stored under the KEY `"user_input"` whose value is the literal
token `"{{user_input}}"`; a parameter under any other key is dispatched
unchanged.  In the "daily_checkin" scenario with `user_input = "2+2"` the
expression therefore reaches the backend as the literal token,
`results["calculator_calculate"]` holds the backend's answer for that
literal, and the execution summary has one line per step (two lines). -/
theorem workflow_substitution_amended (parameters : Dict Value) (user_input : String) :
    (dget parameters "user_input" = some (Value.str "\x7b\x7buser_input\x7d\x7d") →
      substitute_params parameters user_input =
        dset parameters "user_input" (Value.str user_input)) ∧
    (dget parameters "user_input" ≠ some (Value.str "\x7b\x7buser_input\x7d\x7d") →
      substitute_params parameters user_input = parameters) ∧
    (execute_workflow_v2 (realDispatch stReal) stReal "daily_checkin" "2+2").success = true ∧
    dget (execute_workflow_v2 (realDispatch stReal) stReal "daily_checkin" "2+2").results
        "calculator_calculate" = some (Value.str "\x7b\x7buser_input\x7d\x7d") ∧
    (run_workflow_steps (realDispatch stReal) "2+2" daily_checkin_config.tools).2.length = 2 :=
  ⟨fun h => by simp [substitute_params, h],
   fun h => by simp [substitute_params, h],
   rfl, rfl, rfl⟩

/-- Witness for C4 (amended): the substitution fires for the key
`"user_input"`, does not fire for the key `"expression"`, and the scenario
workflow completes. -/
theorem workflow_substitution_amended_witness :
    substitute_params [("user_input", Value.str "\x7b\x7buser_input\x7d\x7d")] "2+2" =
      dset [("user_input", Value.str "\x7b\x7buser_input\x7d\x7d")] "user_input"
        (Value.str "2+2") ∧
    substitute_params [("expression", Value.str "\x7b\x7buser_input\x7d\x7d")] "2+2" =
      [("expression", Value.str "\x7b\x7buser_input\x7d\x7d")] ∧
    (execute_workflow_v2 (realDispatch stReal) stReal "daily_checkin" "2+2").success = true :=
  ⟨(workflow_substitution_amended [("user_input", Value.str "\x7b\x7buser_input\x7d\x7d")]
      "2+2").1 rfl,
   (workflow_substitution_amended [("expression", Value.str "\x7b\x7buser_input\x7d\x7d")]
      "2+2").2.1 (by decide),
   (workflow_substitution_amended [] "2+2").2.2.1⟩

/-- C5: an unknown workflow name yields — without raising — a
`WorkflowResult` with `success = false`, empty results, and the
"workflow configuration not found" summary (`"工作流配置不存在"`). -/
theorem workflow_not_found (dispatch : String → String → Dict Value →
      Except String ToolCallResult) (st : ManagerV2) (workflow_name user_input : String)
    (h : dget st.workflows workflow_name = none) :
    execute_workflow_v2 dispatch st workflow_name user_input =
      { success := false
        workflow_name := workflow_name
        results := []
        execution_summary := "工作流配置不存在"
        metadata := none } := by
  simp [execute_workflow_v2, h]

/-- Witness for C5 at the unknown name "nonexistent". -/
theorem workflow_not_found_witness :
    execute_workflow_v2 (realDispatch st0) st0 "nonexistent" "hello" =
      { success := false
        workflow_name := "nonexistent"
        results := []
        execution_summary := "工作流配置不存在"
        metadata := none } :=
  workflow_not_found (realDispatch st0) st0 "nonexistent" "hello" rfl

/-- C6: once the workflow name is found, `execute_workflow_v2` returns
`success = true` for EVERY dispatcher behavior — individual steps may fail
or raise arbitrarily — and every configured step contributes exactly one
summary line, so a failing or raising step does not stop the iteration. -/
theorem workflow_success_after_completion (dispatch : String → String → Dict Value →
      Except String ToolCallResult) (st : ManagerV2) (workflow_name user_input : String)
    (workflow_config : WorkflowConfig)
    (h : dget st.workflows workflow_name = some workflow_config) :
    (execute_workflow_v2 dispatch st workflow_name user_input).success = true ∧
    (run_workflow_steps dispatch user_input workflow_config.tools).2.length =
      workflow_config.tools.length ∧
    (execute_workflow_v2 dispatch st workflow_name user_input).execution_summary =
      String.intercalate "\n" (run_workflow_steps dispatch user_input workflow_config.tools).2 := by
  refine ⟨by simp [execute_workflow_v2, h], ?_, by simp [execute_workflow_v2, h]⟩
  have hl := run_steps_lines_length dispatch user_input workflow_config.tools ([], [])
  simpa [run_workflow_steps] using hl

/-- Witness for C6: the scenario workflow against a dispatcher that raises
on every step still reports workflow-level success, with both steps
logged. -/
theorem workflow_success_after_completion_witness :
    (execute_workflow_v2 errDispatch stReal "daily_checkin" "2+2").success = true ∧
    (run_workflow_steps errDispatch "2+2" daily_checkin_config.tools).2.length =
      daily_checkin_config.tools.length ∧
    (execute_workflow_v2 errDispatch stReal "daily_checkin" "2+2").execution_summary =
      String.intercalate "\n" (run_workflow_steps errDispatch "2+2" daily_checkin_config.tools).2 :=
  workflow_success_after_completion errDispatch stReal "daily_checkin" "2+2"
    daily_checkin_config rfl

/-- C7: for a registered workflow, `metadata.total_steps` equals the
configured step count — however many steps failed — and
`metadata.completed_steps` equals the number of entries of `results`, which
is at most `total_steps`. -/
theorem workflow_metadata_invariant (dispatch : String → String → Dict Value →
      Except String ToolCallResult) (st : ManagerV2) (workflow_name user_input : String)
    (workflow_config : WorkflowConfig)
    (h : dget st.workflows workflow_name = some workflow_config) :
    (execute_workflow_v2 dispatch st workflow_name user_input).metadata =
      some { tool_mode := st.tool_mode.value
             total_steps := workflow_config.tools.length
             completed_steps :=
               (execute_workflow_v2 dispatch st workflow_name user_input).results.length } ∧
    (execute_workflow_v2 dispatch st workflow_name user_input).results.length ≤
      workflow_config.tools.length := by
  constructor
  · simp [execute_workflow_v2, h]
  · have hr := run_steps_results_length dispatch user_input workflow_config.tools ([], [])
    simp only [execute_workflow_v2, h]
    simpa [run_workflow_steps] using hr

/-- Witness for C7: the scenario workflow with an all-raising dispatcher has
`total_steps = 2` and `completed_steps = 0 ≤ 2`. -/
theorem workflow_metadata_invariant_witness :
    (execute_workflow_v2 errDispatch stReal "daily_checkin" "2+2").metadata =
      some { tool_mode := stReal.tool_mode.value
             total_steps := daily_checkin_config.tools.length
             completed_steps :=
               (execute_workflow_v2 errDispatch stReal "daily_checkin" "2+2").results.length } ∧
    (execute_workflow_v2 errDispatch stReal "daily_checkin" "2+2").results.length ≤
      daily_checkin_config.tools.length :=
  workflow_metadata_invariant errDispatch stReal "daily_checkin" "2+2" daily_checkin_config rfl

/-- C9: a step whose dispatch RETURNS a failed result (`success = false`,
no exception) is still stored in `results` under `"tool_action"` and logged
with a "✅"-prefixed line; only a step that raises is left out of `results`
(and logged with the "❌" failure line). -/
theorem failed_step_still_recorded (dispatch : String → String → Dict Value →
      Except String ToolCallResult) (user_input : String)
    (acc : Dict Value × List String) (step : WorkflowStep) :
    (∀ result : ToolCallResult,
      dispatch step.tool step.action (substitute_params step.parameters user_input) =
          .ok result →
      result.success = false →
      dget (workflow_step dispatch user_input acc step).1 (step.tool ++ "_" ++ step.action) =
        some result.result ∧
      ∃ rest, (workflow_step dispatch user_input acc step).2 = acc.2 ++ ["✅ " ++ rest]) ∧
    (∀ e, dispatch step.tool step.action (substitute_params step.parameters user_input) =
          .error e →
      (workflow_step dispatch user_input acc step).1 = acc.1 ∧
      (workflow_step dispatch user_input acc step).2 =
        acc.2 ++ [failure_line step.tool step.action e]) := by
  constructor
  · intro result hok _
    constructor
    · simp [workflow_step, hok, dget_dset_self]
    · refine ⟨step.tool ++ ("." ++ (step.action ++ (" (" ++ (result.mode_used.value ++
        (") - " ++ (toString result.execution_time ++ "s")))))), ?_⟩
      simp only [workflow_step, hok, success_line, str_append_assoc]
  · intro e herr
    constructor <;> simp [workflow_step, herr]

/-- Witness for C9: a dispatcher returning a failed result, and one that
raises, at a concrete step. -/
theorem failed_step_still_recorded_witness :
    (dget (workflow_step failDispatch "x" ([], []) ⟨"calculator", "calculate", []⟩).1
        ("calculator" ++ "_" ++ "calculate") = some failResult.result ∧
      ∃ rest, (workflow_step failDispatch "x" ([], []) ⟨"calculator", "calculate", []⟩).2 =
        ([] : List String) ++ ["✅ " ++ rest]) ∧
    ((workflow_step errDispatch "x" ([], []) ⟨"calculator", "calculate", []⟩).1 =
        ([] : Dict Value) ∧
      (workflow_step errDispatch "x" ([], []) ⟨"calculator", "calculate", []⟩).2 =
        ([] : List String) ++ [failure_line "calculator" "calculate" "backend down"]) :=
  ⟨(failed_step_still_recorded failDispatch "x" ([], []) ⟨"calculator", "calculate", []⟩).1
      failResult rfl rfl,
   (failed_step_still_recorded errDispatch "x" ([], []) ⟨"calculator", "calculate", []⟩).2
      "backend down" rfl⟩

/-! ## The module-level singleton accessor (lines 313–323) -/

/-- Modelled from the spec / `MCPToolsManagerV2.initialize` (lines 67–82):
the enhanced `initialize_real_interface` call is code outside the snapshot,
so its outcome is an oracle — `none` means it succeeded, `some e` that it
raised with message `e`.  A failure is swallowed with a warning unless the
mode is `REAL_MCP`, in which case the exception propagates (lines 73–80);
the manager object itself is not changed by the modelled fields. -/
def runManagerInit (m : ManagerV2) (env : Option String) : Except String ManagerV2 :=
  match env with
  | none => .ok m
  | some e => if m.tool_mode = ToolMode.REAL_MCP then .error e else .ok m

/-- Model of `get_mcp_tools_manager_v2` (lines 313–323) as a transformer of the module
global `_mcp_tools_manager_v2` (the `Option ManagerV2` argument and second
component).  The global is assigned BEFORE `initialize` runs, so it is set
even when initialization raises; an existing instance is returned untouched
and the `tool_mode` argument is ignored. -/
def get_mcp_tools_manager_v2 (g : Option ManagerV2) (tool_mode : ToolMode)
    (base_workflows : Dict WorkflowConfig) (base_iface : Option RealMCPInterface)
    (env : Option String) : Except String ManagerV2 × Option ManagerV2 :=
  match g with
  | some m => (.ok m, some m)
  | none =>
    let m := mkManagerV2 tool_mode base_workflows base_iface
    match runManagerInit m env with
    | .ok m2 => (.ok m2, some m2)
    | .error e => (.error e, some m)

/-- C10: the accessor constructs a manager only when the global is unset;
whatever instance the first call stored has that call's `tool_mode`; a call
with the global set returns that same instance unchanged, whatever
`tool_mode` (and construction oracles) it is passed; hence the manager
returned by a second call carries the first call's mode. -/
theorem singleton_accessor (tool_mode mode2 : ToolMode)
    (wf wf2 : Dict WorkflowConfig) (iface iface2 : Option RealMCPInterface)
    (env env2 : Option String) (inst : ManagerV2) :
    get_mcp_tools_manager_v2 (some inst) mode2 wf2 iface2 env2 = (.ok inst, some inst) ∧
    (∀ m, (get_mcp_tools_manager_v2 none tool_mode wf iface env).2 = some m →
      m.tool_mode = tool_mode) ∧
    (((get_mcp_tools_manager_v2 none tool_mode wf iface env).2.bind (fun m =>
        (get_mcp_tools_manager_v2 (some m) mode2 wf2 iface2 env2).1.toOption)).map
      ManagerV2.tool_mode = some tool_mode) := by
  refine ⟨rfl, ?_, ?_⟩
  · intro m hm
    rcases env with _ | e
    · simp [get_mcp_tools_manager_v2, runManagerInit] at hm
      rw [← hm]; rfl
    · by_cases hr : tool_mode = ToolMode.REAL_MCP
      · simp [get_mcp_tools_manager_v2, runManagerInit, mkManagerV2, hr] at hm
        rw [← hm, hr]
      · simp [get_mcp_tools_manager_v2, runManagerInit, mkManagerV2, hr] at hm
        rw [← hm]
  · rcases env with _ | e
    · simp only [get_mcp_tools_manager_v2, runManagerInit, Option.bind_some,
        Except.toOption, Option.map_some]
      rfl
    · by_cases hr : tool_mode = ToolMode.REAL_MCP
      · simp only [get_mcp_tools_manager_v2, runManagerInit, mkManagerV2, hr,
          if_true, Option.bind_some, Except.toOption, Option.map_some]
        rfl
      · simp only [get_mcp_tools_manager_v2, runManagerInit, mkManagerV2, hr,
          if_false, Option.bind_some, Except.toOption, Option.map_some]
        rfl

/-- Witness for C10: first call in HYBRID mode, second call asking for
REAL_MCP still gets the HYBRID instance. -/
theorem singleton_accessor_witness :
    get_mcp_tools_manager_v2 (some (mkManagerV2 .HYBRID [] none)) .REAL_MCP [] none none =
      (.ok (mkManagerV2 .HYBRID [] none), some (mkManagerV2 .HYBRID [] none)) ∧
    (mkManagerV2 .HYBRID [] none).tool_mode = .HYBRID ∧
    (((get_mcp_tools_manager_v2 none .HYBRID [] none none).2.bind (fun m =>
        (get_mcp_tools_manager_v2 (some m) .REAL_MCP [] none none).1.toOption)).map
      ManagerV2.tool_mode = some .HYBRID) :=
  have h := singleton_accessor .HYBRID .REAL_MCP [] [] none none none none
    (mkManagerV2 .HYBRID [] none)
  ⟨h.1, h.2.1 (mkManagerV2 .HYBRID [] none) rfl, h.2.2⟩

end AuraWell
